import Mathlib

/-!
# WEBOS-XPL: connection lifecycle of the LG webOS remote-control client

A shallow embedding of `src/main.go`.

Conventions of the embedding.

* A Go `string` is a Lean `String`.  The only byte-level operations the source
  performs on strings (removing `:` and `-`, hex decoding, testing for the
  ASCII prefixes `http://` and `https://`) act identically on characters and on
  UTF-8 bytes: every byte of a non-ASCII character is at least `0x80`, hence is
  neither a separator nor a hexadecimal digit nor part of an ASCII prefix.
* A Go `byte` is a `Nat` below 256; a `[]byte` is a `List Nat`.
* A Go `int` is an `Int` kept inside the 64-bit two's-complement range (a
  64-bit target) by `wrapInt` after every arithmetic operation.
* A Go `error` is a value of `Err`; `nil` is `none`.
* Outcomes decided by the outside world (sockets, the TV) are explicit
  arguments; effects on the outside world are returned as a list of `Event`s.
  Console output (`fmt.Println`) is not part of the model.
-/

namespace WebosXpl

/-! ## Errors -/

/-- The two errors of Go's `encoding/hex` decoder: `InvalidByteError` and
`ErrLength`. -/
inductive HexError where
  | invalidByte (c : Char)
  | errLength
  deriving DecidableEq, Repr

/-- The Go `error` values that the functions of `main.go` return.  Each
constructor is one `fmt.Errorf` site (or an error passed through unchanged);
`msg` is the text of the underlying library error. -/
inductive Err where
  /-- The text is "invalid MAC address: %v" (`sendWOL`). -/
  | invalidMAC (e : HexError)
  /-- The error of `net.DialUDP` or of `conn.Write`, returned unchanged by `sendWOL`. -/
  | transport (msg : String)
  /-- The text is "failed to send WOL: %v" (`Connect`). -/
  | wolFailed (e : Err)
  /-- The text is "failed to connect after retries: %v" (`Connect`). -/
  | connectFailed (msg : String)
  /-- The text is "failed to register: %v" (`Connect`). -/
  | registerFailed (msg : String)
  /-- The text is "not connected" (`send`). -/
  | notConnected
  /-- The text is "failed to send command: %v" (`send`). -/
  | sendFailed (msg : String)
  /-- The text is "volume must be between 0 and 100" (`SetVolume`). -/
  | volumeRange
  /-- The text is "URL must start with http:// or https://" (`PlayVideoURL`). -/
  | urlScheme
  deriving DecidableEq, Repr

/-! ## Wake-on-LAN -/

/-- The call `strings.ReplaceAll(s, string(c), "")`: every occurrence of the
one-character string is removed. -/
def removeAll (s : List Char) (c : Char) : List Char :=
  s.filter (fun x => x != c)

/-- Go's `reverseHexTable`: the value of a hexadecimal digit (either case),
`none` for every other character (table entry `0xff`). -/
def fromHexChar (c : Char) : Option Nat :=
  if '0' ≤ c ∧ c ≤ '9' then some (c.toNat - '0'.toNat)
  else if 'a' ≤ c ∧ c ≤ 'f' then some (c.toNat - 'a'.toNat + 10)
  else if 'A' ≤ c ∧ c ≤ 'F' then some (c.toNat - 'A'.toNat + 10)
  else none

/-- Go's `hex.DecodeString`: characters are consumed in pairs `p q`, each pair
giving the byte `(a << 4) | b`; the first non-hexadecimal character stops the
decoding with `InvalidByteError`, and a single trailing hexadecimal character
gives `ErrLength`.  (The bytes decoded before an error are discarded by the
only caller, so they are not returned.) -/
def hexDecodeString : List Char → Except HexError (List Nat)
  | [] => .ok []
  | [p] =>
    match fromHexChar p with
    | none => .error (.invalidByte p)
    | some _ => .error .errLength
  | p :: q :: rest =>
    match fromHexChar p with
    | none => .error (.invalidByte p)
    | some a =>
      match fromHexChar q with
      | none => .error (.invalidByte q)
      | some b =>
        match hexDecodeString rest with
        | .error e => .error e
        | .ok bs => .ok ((a * 16 + b) :: bs)

/-- Go's builtin `copy(dst, src)`: the first `min (len dst) (len src)`
elements of `dst` are overwritten by those of `src`. -/
def copy (dst src : List Nat) : List Nat :=
  src.take dst.length ++ dst.drop src.length

/-- The statement `copy(packet[i:i+6], hw)` for `i + 6 ≤ len packet`. -/
def copyAt (packet : List Nat) (i : Nat) (hw : List Nat) : List Nat :=
  packet.take i ++ copy ((packet.drop i).take 6) hw ++ packet.drop (i + 6)

/-- The loop `for i := 6; i < 102; i += 6 { copy(packet[i:i+6], hw) }`,
entered at index `i`; `fuel` bounds the number of iterations. -/
def fillLoop (hw : List Nat) : Nat → Nat → List Nat → List Nat
  | 0, _, packet => packet
  | fuel + 1, i, packet =>
    if i < 102 then fillLoop hw fuel (i + 6) (copyAt packet i hw) else packet

/-- Lines 59-65 of `sendWOL`: `make([]byte, 102)`, six bytes `0xff`, then the
copy loop.  The loop runs at most 16 times (`i = 6, 12, ..., 96`), so the fuel
102 never runs out. -/
def magicPacket (hw : List Nat) : List Nat :=
  fillLoop hw 102 6 (List.replicate 6 0xff ++ List.replicate 96 0)

/-- Outcomes of the two socket operations of `sendWOL`: `none` is success,
`some msg` the error returned. -/
structure UDPWorld where
  dial : Option String
  write : Option String
  deriving DecidableEq, Repr

/-- What a call of `sendWOL` did: the error returned, the packet it built (if
it got that far) and the bytes handed to `conn.Write` (if it got that far). -/
structure WOLOutcome where
  err : Option Err
  built : Option (List Nat)
  written : Option (List Nat)
  deriving DecidableEq, Repr

/-- The function `sendWOL(mac string) error`. -/
def sendWOL (mac : String) (w : UDPWorld) : WOLOutcome :=
  let mac := removeAll (removeAll mac.toList ':') '-'
  match hexDecodeString mac with
  | .error e => { err := some (.invalidMAC e), built := none, written := none }
  | .ok hw =>
    let packet := magicPacket hw
    match w.dial with
    | some e => { err := some (.transport e), built := some packet, written := none }
    | none =>
      { err := w.write.map Err.transport, built := some packet, written := some packet }

/-! ## Protocol frames -/

/-- A dynamically typed Go value (`interface{}`) as it occurs in frame
payloads: `nil`, `bool`, `int` (outbound literals), `float64` (every inbound
JSON number), `string`, a slice, or a `map[string]interface{}`. -/
inductive JVal where
  | null
  | bool (b : Bool)
  | int (n : Int)
  | float (q : ℚ)
  | str (s : String)
  | arr (xs : List JVal)
  | obj (kvs : List (String × JVal))

/-- A `map[string]interface{}` as the list of its bindings; the `nil` map and
the empty map are both `[]` (the source only reads `nil` maps, and
`omitempty` drops both).  `m[k]` is `List.lookup k m`. -/
abbrev PayloadMap := List (String × JVal)

/-- The struct `Message` (outbound frame). -/
structure Message where
  Typ : String
  ID : String
  URI : String
  Payload : PayloadMap

/-- The struct `Response` (inbound frame). -/
structure Response where
  Typ : String
  ID : String
  Payload : PayloadMap
  Error : String

/-- A buffered Go channel of `Response`: its capacity and its buffered
elements, oldest first. -/
structure Chan where
  cap : Nat
  buf : List Response

/-- The statement `select { case ch <- r: default: }`: a send that never
blocks.  A `nil` channel is never ready; a buffered channel with no receiver
is ready iff its buffer is not full. -/
def trySend (ch : Option Chan) (r : Response) : Option Chan :=
  match ch with
  | none => none
  | some c => if c.buf.length < c.cap then some { c with buf := c.buf ++ [r] } else some c

/-- An open websocket connection (`*websocket.Conn`), identified by the URL
that was dialled. -/
structure Conn where
  url : String
  deriving DecidableEq, Repr

/-- The struct `LGTV`: the device session. -/
structure LGTV where
  IP : String
  MAC : String
  ClientKey : String
  conn : Option Conn
  msgID : Int
  responses : Option Chan

/-! ## Credential store -/

/-- A `map[string]string`: `none` is the nil map, `some f` a map in which the
key `k` is bound to `f k` (`f k = none` when `k` is absent). -/
abbrev StrMap := Option (String → Option String)

/-- The map read `v, ok := m[k]`; a nil map reads as an empty one. -/
def mapGet (m : StrMap) (k : String) : Option String :=
  match m with
  | none => none
  | some f => f k

/-- The map assignment `m[k] = v`: the bindings afterwards, or `none` when
`m` is the nil map and the assignment panics ("assignment to entry in nil
map"). -/
def mapSet (m : StrMap) (k v : String) : Option (String → Option String) :=
  match m with
  | none => none
  | some f => some (fun a => if a = k then some v else f a)

/-- The struct `Config`: two `map[string]string`. -/
structure Config where
  ClientKeys : StrMap
  MacAddresses : StrMap

/-- The file at `configPath()`: `none` when `os.ReadFile` fails, otherwise
the `Config` that `json.Unmarshal` leaves in `cfg`: a field the file gives as
an object is that map, a field it gives as `null` is the nil map, and a field
it omits (or fails to decode) is the empty map made at lines 33-36. -/
abbrev Store := Option Config

/-- The function `loadConfig()`: two empty maps, overwritten by
`json.Unmarshal` when the file can be read. -/
def loadConfig (fs : Store) : Config :=
  match fs with
  | some cfg => cfg
  | none => { ClientKeys := some (fun _ => none), MacAddresses := some (fun _ => none) }

/-- The method `(*Config).save()` on the file `fs`; `write` is the outcome of
`os.WriteFile` (`none` for success).  On success the file holds the encoding
of `c`; on failure it is left as it was.  The error is discarded either way. -/
def Config.save (c : Config) (fs : Store) (write : Option String) : Store :=
  match write with
  | none => some c
  | some _ => fs

/-! ## Machine integers and formatting -/

/-- The value a 64-bit two's-complement Go `int` holds after an arithmetic
operation whose mathematical result is `n`. -/
def wrapInt (n : Int) : Int :=
  (n + 2 ^ 63) % 2 ^ 64 - 2 ^ 63

/-- The call `fmt.Sprintf("req_%d", n)`. -/
def sprintfReq (n : Int) : String :=
  "req_" ++ toString n

/-! ## Effects -/

/-- An effect of the program on the outside world. -/
inductive Event where
  /-- The call `net.DialTimeout("tcp", addr, 2*time.Second)` of `checkTVOnline`. -/
  | probe (addr : String)
  /-- The call `conn.Write(packet)` on the broadcast UDP socket. -/
  | udpWrite (packet : List Nat)
  /-- The call `time.Sleep(seconds * time.Second)`. -/
  | sleep (seconds : Nat)
  /-- The call `websocket.DefaultDialer.Dial(url, nil)`. -/
  | dial (url : String)
  /-- The statement `go tv.listen()`. -/
  | spawnListen
  /-- The call `tv.conn.WriteJSON(m)`. -/
  | writeJSON (m : Message)

/-! ## Connect -/

/-- State of the retry loop of `Connect`: the variables `tv.conn` and `err`,
and the effects so far. -/
structure DialState where
  conn : Option Conn
  err : Option String
  events : List Event

/-- The loop `for i := 0; i < 5; i++ { ... }` of `Connect`, entered at index
`i`.  `dial k` is the outcome of the call to `Dial` made at index `k`: `none`
for success, `some msg` for the error.  `fuel` bounds the iterations. -/
def dialLoop (ip : String) (dial : Nat → Option String) : Nat → Nat → DialState → DialState
  | 0, _, st => st
  | fuel + 1, i, st =>
    if i < 5 then
      let url := "ws://" ++ ip ++ ":3000/"
      let st : DialState :=
        match dial i with
        | none => { conn := some ⟨url⟩, err := none, events := st.events ++ [.dial url] }
        | some e => { conn := none, err := some e, events := st.events ++ [.dial url] }
      if st.err = none then st
      else
        let st : DialState :=
          if i < 4 then { st with events := st.events ++ [.sleep 3] } else st
        dialLoop ip dial fuel (i + 1) st
    else st

/-- The `register` frame built by `Connect`. -/
def registerMessage (clientKey : String) : Message :=
  let payload : PayloadMap :=
    [ ("pairingType", .str "PROMPT"),
      ("manifest", .obj
        [ ("appVersion", .str "1.0"),
          ("manifestVersion", .int 1),
          ("permissions", .arr
            [ .str "LAUNCH", .str "LAUNCH_WEBAPP", .str "APP_TO_APP", .str "CONTROL_AUDIO",
              .str "CONTROL_DISPLAY", .str "CONTROL_INPUT_JOYSTICK",
              .str "CONTROL_INPUT_MEDIA_RECORDING", .str "CONTROL_INPUT_MEDIA_PLAYBACK",
              .str "CONTROL_INPUT_TV", .str "CONTROL_POWER", .str "READ_APP_STATUS",
              .str "READ_CURRENT_CHANNEL", .str "READ_INPUT_DEVICE_LIST",
              .str "READ_NETWORK_STATE", .str "READ_RUNNING_APPS", .str "READ_TV_CHANNEL_LIST",
              .str "WRITE_NOTIFICATION_TOAST", .str "READ_POWER_STATE",
              .str "READ_COUNTRY_INFO" ]) ]) ]
  { Typ := "register", ID := "reg_0", URI := "",
    Payload := if clientKey ≠ "" then payload ++ [("client-key", .str clientKey)] else payload }

/-- The function `checkTVOnline(ip)`, given the outcome of its
`net.DialTimeout`: `false` on an error, otherwise the probe connection is
closed and the result is `true`. -/
def checkTVOnline (probe : Option String) : Bool :=
  match probe with
  | some _ => false
  | none => true

/-- Everything outside the program that `Connect` depends on. -/
structure World where
  /-- Outcome of the `net.DialTimeout` of `checkTVOnline(tv.IP)`: `none` when
  the TCP probe connected, `some msg` for the error. -/
  probe : Option String
  /-- Outcomes of the UDP socket operations of `sendWOL`. -/
  udp : UDPWorld
  /-- Outcome of the websocket `Dial` made at loop index `k`. -/
  wsDial : Nat → Option String
  /-- Outcome of `WriteJSON(register)`. -/
  wsWrite : Option String

/-- What a call of `Connect` did. -/
structure ConnectOutcome where
  err : Option Err
  tv : LGTV
  events : List Event

/-- The wake step of `Connect` (the `if !checkTVOnline(tv.IP)` block) for
`tv.MAC = mac`: the error it returns, if any, and its effects. -/
def wakeStep (mac : String) (w : World) : Option Err × List Event :=
  if !checkTVOnline w.probe then
    if mac = "" then (none, [])
    else
      let o := sendWOL mac w.udp
      let sent : List Event :=
        match o.written with
        | some p => [.udpWrite p]
        | none => []
      match o.err with
      | some e => (some (.wolFailed e), sent)
      | none => (none, sent ++ [.sleep 30])
  else (none, [])

/-- The method `(*LGTV).Connect()`. -/
def Connect (tv : LGTV) (w : World) : ConnectOutcome :=
  let tv := { tv with responses := some { cap := 10, buf := [] } }
  let probe : Event := .probe (tv.IP ++ ":3000")
  match wakeStep tv.MAC w with
  | (some e, evs) => { err := some e, tv := tv, events := probe :: evs }
  | (none, evs) =>
    let st := dialLoop tv.IP w.wsDial 5 0 { conn := tv.conn, err := none, events := [] }
    let tv := { tv with conn := st.conn }
    match st.err with
    | some e =>
      { err := some (.connectFailed e), tv := tv, events := probe :: (evs ++ st.events) }
    | none =>
      let register := registerMessage tv.ClientKey
      let evs := probe :: (evs ++ st.events ++ [.spawnListen, .writeJSON register])
      match w.wsWrite with
      | some e => { err := some (.registerFailed e), tv := tv, events := evs }
      | none => { err := none, tv := tv, events := evs ++ [.sleep 2] }

/-! ## The listener -/

/-- What the listener did: the session and the credential file afterwards,
and whether the goroutine panicked (which ends the process). -/
structure ListenOutcome where
  tv : LGTV
  fs : Store
  panicked : Bool

/-- One iteration of the loop of `listen()` for a frame `r` that `ReadJSON`
delivered; `write` is the outcome of the `os.WriteFile` of `cfg.save()`, if
the iteration gets there.  The assignment `cfg.ClientKeys[tv.IP] = key`
panics on a nil map: the credential is already assigned, nothing is saved and
the `select` is never reached. -/
def listenStep (tv : LGTV) (fs : Store) (write : Option String) (r : Response) :
    ListenOutcome :=
  let body : ListenOutcome :=
    if r.Typ = "registered" then
      match r.Payload.lookup "client-key" with
      | some (.str key) =>
        let tv := { tv with ClientKey := key }
        let cfg := loadConfig fs
        match mapSet cfg.ClientKeys tv.IP key with
        | none => { tv := tv, fs := fs, panicked := true }
        | some m =>
          { tv := tv, fs := Config.save { cfg with ClientKeys := some m } fs write,
            panicked := false }
      | _ => { tv := tv, fs := fs, panicked := false }
    else { tv := tv, fs := fs, panicked := false }
  if body.panicked then body
  else { body with tv := { body.tv with responses := trySend body.tv.responses r } }

/-- The method `(*LGTV).listen()` run on the frames read before the read
failure that ends the process; `writes i` is the outcome of the file write
made while processing the frame at position `i`.  A panic ends the process,
so the frames after it are not processed. -/
def listen (tv : LGTV) (fs : Store) (writes : Nat → Option String) :
    List Response → ListenOutcome
  | [] => { tv := tv, fs := fs, panicked := false }
  | r :: rs =>
    let o := listenStep tv fs (writes 0) r
    if o.panicked then o else listen o.tv o.fs (fun i => writes (i + 1)) rs

/-! ## Sending commands -/

/-- What a call of `send` did: the error returned, the session afterwards,
and the frame handed to `WriteJSON` (if the call got that far). -/
structure SendOutcome where
  err : Option Err
  tv : LGTV
  frame : Option Message

/-- The method `(*LGTV).send(uri, payload)`; `write` is the outcome of
`tv.conn.WriteJSON(msg)`. -/
def send (tv : LGTV) (uri : String) (payload : PayloadMap) (write : Option String) : SendOutcome :=
  match tv.conn with
  | none => { err := some .notConnected, tv := tv, frame := none }
  | some _ =>
    let tv := { tv with msgID := wrapInt (tv.msgID + 1) }
    let msg : Message :=
      { Typ := "request", ID := sprintfReq tv.msgID, URI := uri, Payload := payload }
    match write with
    | some e => { err := some (.sendFailed e), tv := tv, frame := some msg }
    | none => { err := none, tv := tv, frame := some msg }

/-- One call of `send`: its two arguments and the outcome of its write. -/
structure SendCall where
  uri : String
  payload : PayloadMap
  write : Option String

/-- Consecutive calls of `send` on one session: the session afterwards and
the frames handed to `WriteJSON`, in call order. -/
def sendAll (tv : LGTV) : List SendCall → LGTV × List Message
  | [] => (tv, [])
  | c :: cs =>
    let o := send tv c.uri c.payload c.write
    let rest := sendAll o.tv cs
    (rest.1, o.frame.toList ++ rest.2)

/-- The method `(*LGTV).SetVolume(v)`. -/
def SetVolume (tv : LGTV) (v : Int) (write : Option String) : SendOutcome :=
  if v < 0 ∨ v > 100 then { err := some .volumeRange, tv := tv, frame := none }
  else send tv "ssap://audio/setVolume" [("volume", .int v)] write

/-- The call `strings.HasPrefix(s, p)`. -/
def startsWith (s p : String) : Bool :=
  p.toList.isPrefixOf s.toList

/-- The method `(*LGTV).PlayVideoURL(url)`. -/
def PlayVideoURL (tv : LGTV) (url : String) (write : Option String) : SendOutcome :=
  if !startsWith url "http://" && !startsWith url "https://" then
    { err := some .urlScheme, tv := tv, frame := none }
  else
    send tv "ssap://system.launcher/open"
      [("target", .str url), ("mimeType", .str "video/mp4")] write

/-! ## Observations on effect traces -/

/-- Number of websocket dial attempts in a trace. -/
def attempts (evs : List Event) : Nat :=
  evs.countP (fun e => match e with | .dial _ => true | _ => false)

/-- Number of sleeps of exactly `n` seconds in a trace. -/
def sleeps (n : Nat) (evs : List Event) : Nat :=
  evs.countP (fun e => match e with | .sleep m => m == n | _ => false)

/-- Number of wake packets written in a trace. -/
def wakePackets (evs : List Event) : Nat :=
  evs.countP (fun e => match e with | .udpWrite _ => true | _ => false)

/-! ## Wake-on-LAN: theorems -/

theorem magicPacket_six (a b c d e f : Nat) :
    magicPacket [a, b, c, d, e, f] =
      List.replicate 6 0xff ++ (List.replicate 16 [a, b, c, d, e, f]).flatten := by
  simp [magicPacket, fillLoop, copyAt, copy, List.replicate]

theorem list_length_six (hw : List Nat) (h : hw.length = 6) :
    ∃ a b c d e f, hw = [a, b, c, d, e, f] := by
  match hw, h with
  | [a, b, c, d, e, f], _ => exact ⟨a, b, c, d, e, f, rfl⟩

theorem sendWOL_built_of_decode (mac : String) (w : UDPWorld) (hw : List Nat)
    (hdec : hexDecodeString (removeAll (removeAll mac.toList ':') '-') = .ok hw) :
    (sendWOL mac w).built = some (magicPacket hw) ∧
      (w.dial = none → (sendWOL mac w).written = some (magicPacket hw)) := by
  unfold sendWOL
  simp only [hdec]
  cases hd : w.dial <;> simp

/-- C1. For every hardware-address string that, with every `:` and `-`
removed, hex-decodes to exactly six bytes `hw`, the packet `sendWOL` builds
(and hands to the socket when it opens) has length 102, its bytes 0..5 are
`0xff`, and for every `j < 16` its bytes `6+6j .. 6+6j+5` are `hw`. -/
theorem sendWOL_magic_packet (mac : String) (w : UDPWorld) (hw : List Nat)
    (hdec : hexDecodeString (removeAll (removeAll mac.toList ':') '-') = .ok hw)
    (hlen : hw.length = 6) :
    ∃ p, (sendWOL mac w).built = some p ∧
      (w.dial = none → (sendWOL mac w).written = some p) ∧
      p.length = 102 ∧
      (∀ i, i < 6 → p[i]? = some 0xff) ∧
      (∀ j, j < 16 → (p.drop (6 + 6 * j)).take 6 = hw) := by
  obtain ⟨a, b, c, d, e, f, rfl⟩ := list_length_six hw hlen
  obtain ⟨hb, hwr⟩ := sendWOL_built_of_decode mac w _ hdec
  refine ⟨magicPacket [a, b, c, d, e, f], hb, hwr, ?_, ?_, ?_⟩
  · rw [magicPacket_six]; rfl
  · intro i hi
    rw [magicPacket_six]
    interval_cases i <;> rfl
  · intro j hj
    rw [magicPacket_six]
    interval_cases j <;> rfl

/-- C1 at the address "AA:BB:CC-DD-EE:0f" (both separators, both letter cases). -/
theorem sendWOL_magic_packet_witness :
    ∃ p, (sendWOL "AA:BB:CC-DD-EE:0f" ⟨none, none⟩).built = some p ∧
      ((⟨none, none⟩ : UDPWorld).dial = none →
        (sendWOL "AA:BB:CC-DD-EE:0f" ⟨none, none⟩).written = some p) ∧
      p.length = 102 ∧
      (∀ i, i < 6 → p[i]? = some 0xff) ∧
      (∀ j, j < 16 → (p.drop (6 + 6 * j)).take 6 = [170, 187, 204, 221, 238, 15]) :=
  sendWOL_magic_packet "AA:BB:CC-DD-EE:0f" ⟨none, none⟩ [170, 187, 204, 221, 238, 15]
    (by rfl) (by rfl)

/-! ## Connect: theorems -/

theorem dialLoop_success_at (ip : String) (dial : Nat → Option String) (c : Option Conn)
    (k : Nat) (hk : k < 5) (hok : dial k = none) (hfail : ∀ i, i < k → dial i ≠ none) :
    dialLoop ip dial 5 0 ⟨c, none, []⟩ =
      ⟨some ⟨"ws://" ++ ip ++ ":3000/"⟩, none,
        List.intersperse (.sleep 3) (List.replicate (k + 1) (.dial ("ws://" ++ ip ++ ":3000/")))⟩ := by
  interval_cases k
  · simp [dialLoop, hok, List.replicate]
  · obtain ⟨e0, h0⟩ := Option.ne_none_iff_exists'.mp (hfail 0 (by omega))
    simp [dialLoop, hok, h0, List.replicate]
  · obtain ⟨e0, h0⟩ := Option.ne_none_iff_exists'.mp (hfail 0 (by omega))
    obtain ⟨e1, h1⟩ := Option.ne_none_iff_exists'.mp (hfail 1 (by omega))
    simp [dialLoop, hok, h0, h1, List.replicate]
  · obtain ⟨e0, h0⟩ := Option.ne_none_iff_exists'.mp (hfail 0 (by omega))
    obtain ⟨e1, h1⟩ := Option.ne_none_iff_exists'.mp (hfail 1 (by omega))
    obtain ⟨e2, h2⟩ := Option.ne_none_iff_exists'.mp (hfail 2 (by omega))
    simp [dialLoop, hok, h0, h1, h2, List.replicate]
  · obtain ⟨e0, h0⟩ := Option.ne_none_iff_exists'.mp (hfail 0 (by omega))
    obtain ⟨e1, h1⟩ := Option.ne_none_iff_exists'.mp (hfail 1 (by omega))
    obtain ⟨e2, h2⟩ := Option.ne_none_iff_exists'.mp (hfail 2 (by omega))
    obtain ⟨e3, h3⟩ := Option.ne_none_iff_exists'.mp (hfail 3 (by omega))
    simp [dialLoop, hok, h0, h1, h2, h3, List.replicate]

theorem dialLoop_all_fail (ip : String) (dial : Nat → Option String) (c : Option Conn)
    (hfail : ∀ i, i < 5 → dial i ≠ none) :
    dialLoop ip dial 5 0 ⟨c, none, []⟩ =
      ⟨none, dial 4,
        List.intersperse (.sleep 3) (List.replicate 5 (.dial ("ws://" ++ ip ++ ":3000/")))⟩ := by
  obtain ⟨e0, h0⟩ := Option.ne_none_iff_exists'.mp (hfail 0 (by omega))
  obtain ⟨e1, h1⟩ := Option.ne_none_iff_exists'.mp (hfail 1 (by omega))
  obtain ⟨e2, h2⟩ := Option.ne_none_iff_exists'.mp (hfail 2 (by omega))
  obtain ⟨e3, h3⟩ := Option.ne_none_iff_exists'.mp (hfail 3 (by omega))
  obtain ⟨e4, h4⟩ := Option.ne_none_iff_exists'.mp (hfail 4 (by omega))
  simp [dialLoop, h0, h1, h2, h3, h4, List.replicate]

/-- The retry loop of `Connect` stops after five iterations: any fuel of at
least 5 gives the same result, so its fuel never runs out. -/
theorem dialLoop_fuel (ip : String) (dial : Nat → Option String) (extra : Nat) (st : DialState) :
    dialLoop ip dial (5 + extra) 0 st = dialLoop ip dial 5 0 st := by
  have h : ∀ (s : DialState), dialLoop ip dial extra 5 s = s := by
    intro s
    cases extra <;> simp [dialLoop]
  have e : 5 + extra = extra + 1 + 1 + 1 + 1 + 1 := by omega
  rw [e]
  cases h0 : dial 0 <;> cases h1 : dial 1 <;> cases h2 : dial 2 <;> cases h3 : dial 3 <;>
    cases h4 : dial 4 <;> simp [dialLoop, h, h0, h1, h2, h3, h4]

theorem exists_first_success (dial : Nat → Option String) (h : ∃ k, k < 5 ∧ dial k = none) :
    ∃ k, k < 5 ∧ dial k = none ∧ ∀ i, i < k → dial i ≠ none := by
  classical
  refine ⟨Nat.find h, (Nat.find_spec h).1, (Nat.find_spec h).2, ?_⟩
  intro i hi hnone
  exact Nat.find_min h hi ⟨lt_trans hi (Nat.find_spec h).1, hnone⟩

theorem trace_counts (url : String) (n : Nat) (hn : n < 5) :
    attempts (List.intersperse (.sleep 3) (List.replicate (n + 1) (.dial url))) = n + 1 ∧
    sleeps 3 (List.intersperse (.sleep 3) (List.replicate (n + 1) (.dial url))) = n ∧
    sleeps 30 (List.intersperse (.sleep 3) (List.replicate (n + 1) (.dial url))) = 0 ∧
    wakePackets (List.intersperse (.sleep 3) (List.replicate (n + 1) (.dial url))) = 0 := by
  interval_cases n <;> simp [attempts, sleeps, wakePackets, List.replicate]

/-- The retry loop always ends with between one and five attempts, separated
by the three-second sleep. -/
theorem dialLoop_shape (ip : String) (dial : Nat → Option String) (c : Option Conn) :
    ∃ n, n < 5 ∧ (dialLoop ip dial 5 0 ⟨c, none, []⟩).events =
      List.intersperse (.sleep 3) (List.replicate (n + 1) (.dial ("ws://" ++ ip ++ ":3000/"))) := by
  by_cases h : ∃ k, k < 5 ∧ dial k = none
  · obtain ⟨k, hk, hok, hfail⟩ := exists_first_success dial h
    exact ⟨k, hk, by rw [dialLoop_success_at ip dial c k hk hok hfail]⟩
  · have hfail : ∀ i, i < 5 → dial i ≠ none := fun i hi hn => h ⟨i, hi, hn⟩
    exact ⟨4, by omega, by rw [dialLoop_all_fail ip dial c hfail]⟩

theorem Connect_of_wake_ok (tv : LGTV) (w : World) (evs : List Event)
    (hw : wakeStep tv.MAC w = (none, evs)) :
    (Connect tv w).events =
      .probe (tv.IP ++ ":3000") :: (evs ++ (dialLoop tv.IP w.wsDial 5 0 ⟨tv.conn, none, []⟩).events ++
        (match (dialLoop tv.IP w.wsDial 5 0 ⟨tv.conn, none, []⟩).err with
          | some _ => []
          | none => [.spawnListen, .writeJSON (registerMessage tv.ClientKey)] ++
              (match w.wsWrite with | some _ => [] | none => [.sleep 2]))) ∧
    (Connect tv w).err =
      (match (dialLoop tv.IP w.wsDial 5 0 ⟨tv.conn, none, []⟩).err with
        | some e => some (.connectFailed e)
        | none => w.wsWrite.map Err.registerFailed) ∧
    (Connect tv w).tv.conn = (dialLoop tv.IP w.wsDial 5 0 ⟨tv.conn, none, []⟩).conn := by
  unfold Connect
  simp only [hw]
  cases (dialLoop tv.IP w.wsDial 5 0 ⟨tv.conn, none, []⟩).err <;> cases w.wsWrite <;> simp

/-- C3. With `dial k` the outcome of the dial made at loop index `k`: the
retry loop of `Connect` ends without error iff one of the first five dials
succeeds; if the first success is at index `k` it makes exactly `k + 1`
attempts, if all five fail it ends with the fifth error after exactly five
attempts; in both cases the trace is the attempts separated by the 3-second
sleep (one sleep fewer than attempts, none after the last).  A `Connect` that
reaches the loop inherits these counts, and fails with `connectFailed` exactly
when all five dials fail. -/
theorem Connect_retry_loop (ip : String) (dial : Nat → Option String) (c : Option Conn) :
    ((dialLoop ip dial 5 0 ⟨c, none, []⟩).err = none ↔ ∃ k, k < 5 ∧ dial k = none) ∧
    (∀ k, k < 5 → dial k = none → (∀ i, i < k → dial i ≠ none) →
      (dialLoop ip dial 5 0 ⟨c, none, []⟩).err = none ∧
      (dialLoop ip dial 5 0 ⟨c, none, []⟩).conn = some ⟨"ws://" ++ ip ++ ":3000/"⟩ ∧
      (dialLoop ip dial 5 0 ⟨c, none, []⟩).events =
        List.intersperse (.sleep 3) (List.replicate (k + 1) (.dial ("ws://" ++ ip ++ ":3000/"))) ∧
      attempts (dialLoop ip dial 5 0 ⟨c, none, []⟩).events = k + 1 ∧
      sleeps 3 (dialLoop ip dial 5 0 ⟨c, none, []⟩).events = k) ∧
    ((∀ i, i < 5 → dial i ≠ none) →
      (dialLoop ip dial 5 0 ⟨c, none, []⟩).err = dial 4 ∧
      (dialLoop ip dial 5 0 ⟨c, none, []⟩).conn = none ∧
      (dialLoop ip dial 5 0 ⟨c, none, []⟩).events =
        List.intersperse (.sleep 3) (List.replicate 5 (.dial ("ws://" ++ ip ++ ":3000/"))) ∧
      attempts (dialLoop ip dial 5 0 ⟨c, none, []⟩).events = 5 ∧
      sleeps 3 (dialLoop ip dial 5 0 ⟨c, none, []⟩).events = 4) ∧
    (∀ (tv : LGTV) (w : World) (evs : List Event),
      tv.IP = ip → w.wsDial = dial → wakeStep tv.MAC w = (none, evs) →
      (∀ k, k < 5 → dial k = none → (∀ i, i < k → dial i ≠ none) →
        (Connect tv w).err = w.wsWrite.map Err.registerFailed ∧
        attempts (Connect tv w).events = k + 1 ∧
        sleeps 3 (Connect tv w).events = k) ∧
      ((∀ i, i < 5 → dial i ≠ none) →
        (∃ e, dial 4 = some e ∧ (Connect tv w).err = some (.connectFailed e)) ∧
        attempts (Connect tv w).events = 5 ∧
        sleeps 3 (Connect tv w).events = 4)) := by
  have hcount : ∀ (a b : List Event),
      attempts (a ++ b) = attempts a + attempts b ∧
      sleeps 3 (a ++ b) = sleeps 3 a + sleeps 3 b := by
    intro a b
    simp [attempts, sleeps]
  have hwake : ∀ (mac : String) (w : World) (evs : List Event),
      wakeStep mac w = (none, evs) → attempts evs = 0 ∧ sleeps 3 evs = 0 := by
    intro mac w evs h
    unfold wakeStep at h
    cases ho : checkTVOnline w.probe
    · by_cases hm : mac = ""
      · simp [ho, hm] at h
        subst h
        simp [attempts, sleeps]
      · cases he : (sendWOL mac w.udp).err
        · cases hwr : (sendWOL mac w.udp).written <;>
            simp [ho, hm, he, hwr] at h <;> subst h <;> simp [attempts, sleeps]
        · simp [ho, hm, he] at h
    · simp [ho] at h
      subst h
      simp [attempts, sleeps]
  refine ⟨?_, ?_, ?_, ?_⟩
  · constructor
    · intro h
      by_contra hne
      have hfail : ∀ i, i < 5 → dial i ≠ none := fun i hi hn => hne ⟨i, hi, hn⟩
      rw [dialLoop_all_fail ip dial c hfail] at h
      exact hfail 4 (by omega) h
    · intro h
      obtain ⟨k, hk, hok, hfail⟩ := exists_first_success dial h
      rw [dialLoop_success_at ip dial c k hk hok hfail]
  · intro k hk hok hfail
    rw [dialLoop_success_at ip dial c k hk hok hfail]
    obtain ⟨h1, h2, -, -⟩ := trace_counts ("ws://" ++ ip ++ ":3000/") k hk
    exact ⟨rfl, rfl, rfl, h1, h2⟩
  · intro hfail
    rw [dialLoop_all_fail ip dial c hfail]
    obtain ⟨h1, h2, -, -⟩ := trace_counts ("ws://" ++ ip ++ ":3000/") 4 (by omega)
    exact ⟨rfl, rfl, rfl, h1, h2⟩
  · intro tv w evs hip hdial hw
    subst hip hdial
    obtain ⟨hev, herr, -⟩ := Connect_of_wake_ok tv w evs hw
    obtain ⟨hw1, hw2⟩ := hwake tv.MAC w evs hw
    constructor
    · intro k hk hok hfail
      rw [hev, herr, dialLoop_success_at tv.IP w.wsDial tv.conn k hk hok hfail]
      obtain ⟨h1, h2, -, -⟩ := trace_counts ("ws://" ++ tv.IP ++ ":3000/") k hk
      refine ⟨rfl, ?_, ?_⟩
      · have := (hcount evs (List.intersperse (.sleep 3)
          (List.replicate (k + 1) (.dial ("ws://" ++ tv.IP ++ ":3000/"))))).1
        cases w.wsWrite <;> simp_all [attempts, sleeps]
      · have := (hcount evs (List.intersperse (.sleep 3)
          (List.replicate (k + 1) (.dial ("ws://" ++ tv.IP ++ ":3000/"))))).2
        cases w.wsWrite <;> simp_all [attempts, sleeps]
    · intro hfail
      rw [hev, herr, dialLoop_all_fail tv.IP w.wsDial tv.conn hfail]
      obtain ⟨e, he⟩ := Option.ne_none_iff_exists'.mp (hfail 4 (by omega))
      obtain ⟨h1, h2, -, -⟩ := trace_counts ("ws://" ++ tv.IP ++ ":3000/") 4 (by omega)
      refine ⟨⟨e, he, by simp [he]⟩, ?_, ?_⟩
      · simp_all [attempts, sleeps]
      · simp_all [attempts, sleeps]

theorem sendWOL_ok_written (mac : String) (u : UDPWorld) (h : (sendWOL mac u).err = none) :
    ∃ p, (sendWOL mac u).written = some p := by
  unfold sendWOL at h ⊢
  cases hd : hexDecodeString (removeAll (removeAll mac.toList ':') '-') with
  | error e =>
    simp only [hd] at h
    simp at h
  | ok hw =>
    simp only [hd] at h ⊢
    cases hdial : u.dial with
    | some e =>
      simp only [hdial] at h
      simp at h
    | none => exact ⟨magicPacket hw, rfl⟩

theorem wakeStep_skip (mac : String) (w : World) (h : checkTVOnline w.probe = true ∨ mac = "") :
    wakeStep mac w = (none, []) := by
  unfold wakeStep
  rcases h with h | h <;> simp [h]

theorem wakeStep_ok (mac : String) (w : World) (ho : checkTVOnline w.probe = false) (hm : mac ≠ "")
    (p : List Nat) (he : (sendWOL mac w.udp).err = none)
    (hp : (sendWOL mac w.udp).written = some p) :
    wakeStep mac w = (none, [.udpWrite p, .sleep 30]) := by
  unfold wakeStep
  simp [ho, hm, he, hp]

theorem wakeStep_fail (mac : String) (w : World) (ho : checkTVOnline w.probe = false) (hm : mac ≠ "")
    (e : Err) (he : (sendWOL mac w.udp).err = some e) :
    wakeStep mac w = (some (.wolFailed e),
      match (sendWOL mac w.udp).written with
      | some p => [.udpWrite p]
      | none => []) := by
  unfold wakeStep
  simp [ho, hm, he]

theorem Connect_of_wake_fail (tv : LGTV) (w : World) (e : Err) (evs : List Event)
    (hw : wakeStep tv.MAC w = (some e, evs)) :
    (Connect tv w).err = some e ∧
    (Connect tv w).events = .probe (tv.IP ++ ":3000") :: evs := by
  unfold Connect
  simp [hw]

/-- After the wake step, `Connect` dials at once; nothing from there on is a
wake packet or a 30-second sleep. -/
theorem Connect_after_wake (tv : LGTV) (w : World) (evs : List Event)
    (hw : wakeStep tv.MAC w = (none, evs)) :
    ∃ rest, (Connect tv w).events =
        .probe (tv.IP ++ ":3000") :: (evs ++ .dial ("ws://" ++ tv.IP ++ ":3000/") :: rest) ∧
      wakePackets rest = 0 ∧ sleeps 30 rest = 0 := by
  obtain ⟨hev, -, -⟩ := Connect_of_wake_ok tv w evs hw
  obtain ⟨n, hn, hshape⟩ := dialLoop_shape tv.IP w.wsDial tv.conn
  rw [hev, hshape]
  cases (dialLoop tv.IP w.wsDial 5 0 ⟨tv.conn, none, []⟩).err <;> cases w.wsWrite <;>
    interval_cases n <;>
    exact ⟨_, by simp [List.replicate]; rfl, by simp [wakePackets], by simp [sleeps]⟩

/-- C10, as stated, fails: with the device unreachable and the non-empty
hardware address "zz", `Connect` writes no wake packet and performs no settle
wait (and makes no connection attempt): `sendWOL` rejects the address and
`Connect` returns its error. -/
theorem Connect_wake_counterexample :
    checkTVOnline (World.mk (some "i/o timeout") ⟨none, none⟩ (fun _ => none) none).probe = false ∧
    (LGTV.mk "10.0.0.2" "zz" "" none 0 none).MAC ≠ "" ∧
    wakePackets (Connect (LGTV.mk "10.0.0.2" "zz" "" none 0 none)
      (World.mk (some "i/o timeout") ⟨none, none⟩ (fun _ => none) none)).events = 0 ∧
    sleeps 30 (Connect (LGTV.mk "10.0.0.2" "zz" "" none 0 none)
      (World.mk (some "i/o timeout") ⟨none, none⟩ (fun _ => none) none)).events = 0 ∧
    attempts (Connect (LGTV.mk "10.0.0.2" "zz" "" none 0 none)
      (World.mk (some "i/o timeout") ⟨none, none⟩ (fun _ => none) none)).events = 0 ∧
    (Connect (LGTV.mk "10.0.0.2" "zz" "" none 0 none)
      (World.mk (some "i/o timeout") ⟨none, none⟩ (fun _ => none) none)).err =
        some (.wolFailed (.invalidMAC (.invalidByte 'z'))) := by
  decide

/-- C10, amended.  `Connect` calls `sendWOL` iff the probe fails and the
hardware address is non-empty.  If that call succeeds, the wake packet is
written, the 30-second settle wait follows, and the first connection attempt
comes next.  If it fails, `Connect` returns the wake error with no settle wait
and no connection attempt.  If the device is reachable, or unreachable with
an empty hardware address, there is no wake packet and no settle wait, and
the first connection attempt follows the probe directly. -/
theorem Connect_wake_decision (tv : LGTV) (w : World) :
    ((checkTVOnline w.probe = true ∨ tv.MAC = "") →
      wakePackets (Connect tv w).events = 0 ∧ sleeps 30 (Connect tv w).events = 0 ∧
      ∃ rest, (Connect tv w).events =
        .probe (tv.IP ++ ":3000") :: .dial ("ws://" ++ tv.IP ++ ":3000/") :: rest) ∧
    ((checkTVOnline w.probe = false ∧ tv.MAC ≠ "") → (sendWOL tv.MAC w.udp).err = none →
      wakePackets (Connect tv w).events = 1 ∧ sleeps 30 (Connect tv w).events = 1 ∧
      ∃ p rest, (sendWOL tv.MAC w.udp).written = some p ∧
        (Connect tv w).events =
          .probe (tv.IP ++ ":3000") :: .udpWrite p :: .sleep 30 ::
            .dial ("ws://" ++ tv.IP ++ ":3000/") :: rest) ∧
    (∀ e, (checkTVOnline w.probe = false ∧ tv.MAC ≠ "") → (sendWOL tv.MAC w.udp).err = some e →
      (Connect tv w).err = some (.wolFailed e) ∧
      sleeps 30 (Connect tv w).events = 0 ∧ attempts (Connect tv w).events = 0 ∧
      (Connect tv w).events = .probe (tv.IP ++ ":3000") ::
        (match (sendWOL tv.MAC w.udp).written with
          | some p => [.udpWrite p]
          | none => [])) := by
  refine ⟨?_, ?_, ?_⟩
  · intro h
    obtain ⟨rest, hev, h1, h2⟩ := Connect_after_wake tv w [] (wakeStep_skip tv.MAC w h)
    rw [hev]
    refine ⟨?_, ?_, rest, rfl⟩
    · simpa [wakePackets] using h1
    · simpa [sleeps] using h2
  · rintro ⟨ho, hm⟩ he
    obtain ⟨p, hp⟩ := sendWOL_ok_written tv.MAC w.udp he
    obtain ⟨rest, hev, h1, h2⟩ :=
      Connect_after_wake tv w _ (wakeStep_ok tv.MAC w ho hm p he hp)
    rw [hev]
    refine ⟨?_, ?_, p, rest, hp, rfl⟩
    · simpa [wakePackets] using h1
    · simpa [sleeps] using h2
  · rintro e ⟨ho, hm⟩ he
    obtain ⟨herr, hev⟩ := Connect_of_wake_fail tv w _ _ (wakeStep_fail tv.MAC w ho hm e he)
    rw [herr, hev]
    refine ⟨rfl, ?_, ?_, rfl⟩ <;>
      cases (sendWOL tv.MAC w.udp).written <;> simp [sleeps, attempts]

/-- C10 amended, at a concrete input: unreachable device, valid address, working
broadcast socket. -/
theorem Connect_wake_decision_witness :
    wakePackets (Connect (LGTV.mk "10.0.0.2" "AA:BB:CC:DD:EE:FF" "" none 0 none)
      (World.mk (some "i/o timeout") ⟨none, none⟩ (fun _ => none) none)).events = 1 ∧
    sleeps 30 (Connect (LGTV.mk "10.0.0.2" "AA:BB:CC:DD:EE:FF" "" none 0 none)
      (World.mk (some "i/o timeout") ⟨none, none⟩ (fun _ => none) none)).events = 1 ∧
    ∃ p rest, (sendWOL "AA:BB:CC:DD:EE:FF" ⟨none, none⟩).written = some p ∧
      (Connect (LGTV.mk "10.0.0.2" "AA:BB:CC:DD:EE:FF" "" none 0 none)
        (World.mk (some "i/o timeout") ⟨none, none⟩ (fun _ => none) none)).events =
        .probe ("10.0.0.2" ++ ":3000") :: .udpWrite p :: .sleep 30 ::
          .dial ("ws://" ++ "10.0.0.2" ++ ":3000/") :: rest :=
  (Connect_wake_decision (LGTV.mk "10.0.0.2" "AA:BB:CC:DD:EE:FF" "" none 0 none)
    (World.mk (some "i/o timeout") ⟨none, none⟩ (fun _ => none) none)).2.1 ⟨rfl, by decide⟩ (by decide)

/-! ## Sending commands: theorems -/

theorem wrapInt_of_range (n : Int) (hlo : -2 ^ 63 ≤ n) (hhi : n < 2 ^ 63) : wrapInt n = n := by
  unfold wrapInt
  rw [Int.emod_eq_of_lt (by omega) (by omega)]
  omega

theorem digitChar_value (k : Nat) (hk : k < 10) : (Nat.digitChar k).toNat - 48 = k := by
  interval_cases k <;> rfl

theorem toDigitsCore_value (fuel : Nat) : ∀ (n : Nat) (ds : List Char), n < fuel →
    (Nat.toDigitsCore 10 fuel n ds).foldl (fun a c => a * 10 + (c.toNat - 48)) 0 =
      ds.foldl (fun a c => a * 10 + (c.toNat - 48)) n := by
  induction fuel with
  | zero => intro n ds h; omega
  | succ fuel ih =>
    intro n ds h
    unfold Nat.toDigitsCore
    by_cases h0 : n / 10 = 0
    · have hlt : n < 10 := by omega
      simp only [h0, if_true, List.foldl_cons]
      rw [Nat.mod_eq_of_lt hlt, digitChar_value n hlt]
      simp
    · simp only [h0, if_false]
      rw [ih (n / 10) _ (by omega)]
      simp only [List.foldl_cons]
      rw [digitChar_value (n % 10) (Nat.mod_lt n (by omega))]
      congr 1
      omega

theorem toDigits_value (n : Nat) :
    (Nat.toDigits 10 n).foldl (fun a c => a * 10 + (c.toNat - 48)) 0 = n := by
  unfold Nat.toDigits
  rw [toDigitsCore_value (n + 1) n [] (by omega)]
  rfl

theorem natRepr_injective (a b : Nat) (h : Nat.repr a = Nat.repr b) : a = b := by
  have h2 : Nat.toDigits 10 a = Nat.toDigits 10 b := congrArg String.data h
  have := congrArg (List.foldl (fun a c => a * 10 + (c.toNat - 48)) 0) h2
  simpa [toDigits_value] using this

theorem string_append_left_cancel (p s t : String) (h : p ++ s = p ++ t) : s = t := by
  have := congrArg String.data h
  simp only [String.data_append] at this
  exact String.ext (List.append_cancel_left this)

theorem intToString_injective (a b : Int) (h : toString a = toString b) : a = b := by
  have hneg : ∀ (m n : Nat), Nat.repr m ≠ "-" ++ Nat.repr n := by
    intro m n hmn
    have h2 : Nat.toDigits 10 m = '-' :: Nat.toDigits 10 n := congrArg String.data hmn
    have hv := congrArg (List.foldl (fun a c => a * 10 + (c.toNat - 48)) 0) h2
    have hmn2 : m = n := by
      rw [toDigits_value] at hv
      simp only [List.foldl_cons] at hv
      have h0 : (0 * 10 + (('-' : Char).toNat - 48)) = 0 := by decide
      rw [h0, toDigits_value] at hv
      exact hv
    subst hmn2
    have hl := congrArg List.length h2
    simp at hl
  cases a with
  | ofNat m =>
    cases b with
    | ofNat n =>
      have : Nat.repr m = Nat.repr n := h
      rw [natRepr_injective m n this]
    | negSucc n =>
      have : Nat.repr m = "-" ++ Nat.repr (n + 1) := h
      exact absurd this (hneg m (n + 1))
  | negSucc m =>
    cases b with
    | ofNat n =>
      have : "-" ++ Nat.repr (m + 1) = Nat.repr n := h
      exact absurd this.symm (hneg n (m + 1))
    | negSucc n =>
      have : "-" ++ Nat.repr (m + 1) = "-" ++ Nat.repr (n + 1) := h
      have := natRepr_injective _ _ (string_append_left_cancel _ _ _ this)
      have hmn : m = n := by omega
      rw [hmn]

theorem sprintfReq_injective (a b : Int) (h : sprintfReq a = sprintfReq b) : a = b :=
  intToString_injective a b (string_append_left_cancel _ _ _ h)

theorem send_open (tv : LGTV) (uri : String) (payload : PayloadMap) (write : Option String)
    (hconn : tv.conn ≠ none) :
    (send tv uri payload write).err = write.map Err.sendFailed ∧
    (send tv uri payload write).tv = { tv with msgID := wrapInt (tv.msgID + 1) } ∧
    (send tv uri payload write).frame =
      some { Typ := "request", ID := sprintfReq (wrapInt (tv.msgID + 1)), URI := uri,
             Payload := payload } := by
  obtain ⟨c, hc⟩ := Option.ne_none_iff_exists'.mp hconn
  unfold send
  cases write <;> simp [hc]

theorem sendAll_ids (cs : List SendCall) : ∀ (tv : LGTV), tv.conn ≠ none →
    -2 ^ 63 ≤ tv.msgID → tv.msgID + cs.length < 2 ^ 63 →
    (sendAll tv cs).2.map (fun m => m.ID) =
      (List.range cs.length).map (fun (i : Nat) => sprintfReq (tv.msgID + 1 + (i : Int))) ∧
    (sendAll tv cs).1.msgID = tv.msgID + cs.length ∧
    (sendAll tv cs).1.conn = tv.conn := by
  induction cs with
  | nil => intro tv _ _ _; simp [sendAll]
  | cons c cs ih =>
    intro tv hconn hlo hhi
    obtain ⟨-, htv, hframe⟩ := send_open tv c.uri c.payload c.write hconn
    simp only [List.length_cons, Nat.cast_add, Nat.cast_one] at hhi
    have hw : wrapInt (tv.msgID + 1) = tv.msgID + 1 :=
      wrapInt_of_range _ (by omega) (by omega)
    rw [hw] at htv hframe
    obtain ⟨h1, h2, h3⟩ := ih (send tv c.uri c.payload c.write).tv
      (by rw [htv]; exact hconn) (by rw [htv]; simp; omega) (by rw [htv]; simp; omega)
    rw [htv] at h1 h2 h3
    simp only at h1 h2 h3
    simp only [sendAll, hframe, htv, List.length_cons]
    rw [List.range_succ_eq_map]
    refine ⟨?_, ?_, ?_⟩
    · simp only [Option.toList, List.map_cons, List.map_append, List.singleton_append, h1,
        List.map_map, List.cons.injEq, Nat.cast_zero, add_zero, true_and, List.map_inj_left,
        Function.comp_apply, Nat.succ_eq_add_one, Nat.cast_add, Nat.cast_one]
      intro a _
      congr 1
      omega
    · rw [h2]; simp; omega
    · rw [h3]

/-- C4, as stated, fails when the counter overflows: from the counter value
`2^63 - 2` two sends frame the IDs "req_9223372036854775807" and then
"req_-9223372036854775808"; the second is not "req_<c+2>" and its number is
smaller than the first. -/
theorem send_ids_overflow_counterexample :
    (LGTV.mk "10.0.0.2" "" "" (some ⟨"ws://10.0.0.2:3000/"⟩) 9223372036854775806 none).conn ≠ none ∧
    (sendAll (LGTV.mk "10.0.0.2" "" "" (some ⟨"ws://10.0.0.2:3000/"⟩) 9223372036854775806 none)
      [⟨"ssap://audio/volumeUp", [], none⟩, ⟨"ssap://audio/volumeUp", [], none⟩]).2.map
        (fun m => m.ID) = ["req_9223372036854775807", "req_-9223372036854775808"] ∧
    "req_-9223372036854775808" ≠ sprintfReq (9223372036854775806 + 2) ∧
    (sendAll (LGTV.mk "10.0.0.2" "" "" (some ⟨"ws://10.0.0.2:3000/"⟩) 9223372036854775806 none)
      [⟨"ssap://audio/volumeUp", [], none⟩, ⟨"ssap://audio/volumeUp", [], none⟩]).1.msgID =
        -9223372036854775808 := by
  decide

/-- C4, amended.  On a session with an open transport whose counter `c` is a
valid `int`, any `N` consecutive sends with `c + N ≤ 2^63 - 1` (no overflow),
whatever their URIs, payloads and write outcomes, hand `N` frames to the
transport; the `i`-th (counting from 1) carries the ID "req_<c+i>", so the ID
numbers are strictly increasing in send order and the IDs pairwise distinct;
the counter ends at `c + N`. -/
theorem send_ids_increasing (tv : LGTV) (cs : List SendCall) (hconn : tv.conn ≠ none)
    (hlo : -2 ^ 63 ≤ tv.msgID) (hhi : tv.msgID + cs.length < 2 ^ 63) :
    (sendAll tv cs).2.length = cs.length ∧
    (sendAll tv cs).2.map (fun m => m.ID) =
      ((List.range cs.length).map (fun (i : Nat) => tv.msgID + 1 + (i : Int))).map sprintfReq ∧
    ((List.range cs.length).map (fun (i : Nat) => tv.msgID + 1 + (i : Int))).Pairwise
      (fun a b => a < b) ∧
    ((sendAll tv cs).2.map (fun m => m.ID)).Nodup ∧
    (sendAll tv cs).1.msgID = tv.msgID + cs.length := by
  obtain ⟨h1, h2, -⟩ := sendAll_ids cs tv hconn hlo hhi
  have hlen := congrArg List.length h1
  simp only [List.length_map, List.length_range] at hlen
  refine ⟨hlen, ?_, ?_, ?_, h2⟩
  · rw [h1, List.map_map]
    rfl
  · exact List.Pairwise.map _ (fun a b (hab : a < b) => by omega) (List.pairwise_lt_range _)
  · rw [h1]
    refine List.Nodup.map ?_ (List.nodup_range _)
    intro a b hab
    have := sprintfReq_injective _ _ hab
    omega

/-- C4 amended, at a concrete input: three sends (the second write failing)
on a fresh session frame "req_1", "req_2", "req_3". -/
theorem send_ids_increasing_witness :
    (sendAll (LGTV.mk "10.0.0.2" "" "" (some ⟨"ws://10.0.0.2:3000/"⟩) 0 none)
      [⟨"ssap://media.controls/play", [], none⟩, ⟨"ssap://audio/volumeUp", [], some "broken pipe"⟩,
        ⟨"ssap://media.controls/pause", [], none⟩]).2.map (fun m => m.ID) =
      ["req_1", "req_2", "req_3"] := by
  have h := (send_ids_increasing (LGTV.mk "10.0.0.2" "" "" (some ⟨"ws://10.0.0.2:3000/"⟩) 0 none)
    [⟨"ssap://media.controls/play", [], none⟩, ⟨"ssap://audio/volumeUp", [], some "broken pipe"⟩,
      ⟨"ssap://media.controls/pause", [], none⟩] (by decide) (by decide) (by decide)).2.1
  rw [h]
  decide

/-- C7. On a session with an open transport whose write succeeds,
`SetVolume(v)` succeeds iff `0 ≤ v ≤ 100`; for `v` outside that interval it
returns the out-of-range error on any session, with the session (hence the
request counter) unchanged and no frame handed to the transport. -/
theorem SetVolume_range (tv : LGTV) (v : Int) :
    (tv.conn ≠ none → ((SetVolume tv v none).err = none ↔ 0 ≤ v ∧ v ≤ 100)) ∧
    (∀ write, (v < 0 ∨ 100 < v) →
      SetVolume tv v write = { err := some .volumeRange, tv := tv, frame := none }) ∧
    (∀ write, 0 ≤ v → v ≤ 100 →
      SetVolume tv v write = send tv "ssap://audio/setVolume" [("volume", .int v)] write) := by
  refine ⟨?_, ?_, ?_⟩
  · intro hconn
    unfold SetVolume
    by_cases h : v < 0 ∨ v > 100
    · simp only [h, if_true]
      constructor
      · intro h2; simp at h2
      · intro h2; omega
    · simp only [h, if_false]
      have := (send_open tv "ssap://audio/setVolume" [("volume", .int v)] none hconn).1
      rw [this]
      simp
      omega
  · intro write h
    unfold SetVolume
    have h2 : v < 0 ∨ v > 100 := h
    simp [h2]
  · intro write h1 h2
    unfold SetVolume
    have h3 : ¬ (v < 0 ∨ v > 100) := by omega
    simp [h3]

/-- C7 at the four boundary values, on an open session whose write succeeds. -/
theorem SetVolume_range_witness :
    (SetVolume (LGTV.mk "10.0.0.2" "" "" (some ⟨"ws://10.0.0.2:3000/"⟩) 0 none) 0 none).err = none ∧
    (SetVolume (LGTV.mk "10.0.0.2" "" "" (some ⟨"ws://10.0.0.2:3000/"⟩) 0 none) 100 none).err = none ∧
    (SetVolume (LGTV.mk "10.0.0.2" "" "" (some ⟨"ws://10.0.0.2:3000/"⟩) 0 none) (-1) none).err =
      some .volumeRange ∧
    (SetVolume (LGTV.mk "10.0.0.2" "" "" (some ⟨"ws://10.0.0.2:3000/"⟩) 0 none) 101 none).err =
      some .volumeRange := by
  have h := SetVolume_range (LGTV.mk "10.0.0.2" "" "" (some ⟨"ws://10.0.0.2:3000/"⟩) 0 none)
  refine ⟨((h 0).1 (by decide)).2 (by decide), ((h 100).1 (by decide)).2 (by decide), ?_, ?_⟩
  · rw [(h (-1)).2.1 none (by decide)]
  · rw [(h 101).2.1 none (by decide)]

theorem startsWith_iff (s p : String) : startsWith s p = true ↔ ∃ t : String, s = p ++ t := by
  unfold startsWith
  rw [ List.isPrefixOf_iff_prefix]
  constructor
  · rintro ⟨t, ht⟩
    refine ⟨String.mk t, String.ext ?_⟩
    simp only [String.data_append]
    exact ht.symm
  · rintro ⟨t, rfl⟩
    exact ⟨t.toList, by simp⟩

theorem send_err_ne_urlScheme (tv : LGTV) (uri : String) (payload : PayloadMap)
    (write : Option String) : (send tv uri payload write).err ≠ some .urlScheme := by
  unfold send
  cases tv.conn <;> cases write <;> simp

/-- C8. `PlayVideoURL(u)` returns the invalid-URL error iff `u` begins with
neither "http://" nor "https://"; in that case the session (hence the request
counter) is unchanged and no frame is handed to the transport.  For every `u`
beginning with one of the two prefixes the call is exactly
`send("ssap://system.launcher/open", {target: u, mimeType: "video/mp4"})`. -/
theorem PlayVideoURL_validation (tv : LGTV) (u : String) (write : Option String) :
    ((PlayVideoURL tv u write).err = some .urlScheme ↔
      ¬ ((∃ t : String, u = "http://" ++ t) ∨ (∃ t : String, u = "https://" ++ t))) ∧
    (¬ ((∃ t : String, u = "http://" ++ t) ∨ (∃ t : String, u = "https://" ++ t)) →
      PlayVideoURL tv u write = { err := some .urlScheme, tv := tv, frame := none }) ∧
    (((∃ t : String, u = "http://" ++ t) ∨ (∃ t : String, u = "https://" ++ t)) →
      PlayVideoURL tv u write =
        send tv "ssap://system.launcher/open"
          [("target", .str u), ("mimeType", .str "video/mp4")] write) := by
  rw [← startsWith_iff, ← startsWith_iff]
  unfold PlayVideoURL
  cases h1 : startsWith u "http://" <;> cases h2 : startsWith u "https://" <;>
    simp [send_err_ne_urlScheme]

/-- C8 at the three inputs named by the specification, on an open session
whose write succeeds. -/
theorem PlayVideoURL_validation_witness :
    (PlayVideoURL (LGTV.mk "10.0.0.2" "" "" (some ⟨"ws://10.0.0.2:3000/"⟩) 0 none)
      "ftp://x" none).err = some .urlScheme ∧
    PlayVideoURL (LGTV.mk "10.0.0.2" "" "" (some ⟨"ws://10.0.0.2:3000/"⟩) 0 none)
      "http://x" none =
      send (LGTV.mk "10.0.0.2" "" "" (some ⟨"ws://10.0.0.2:3000/"⟩) 0 none)
        "ssap://system.launcher/open"
        [("target", .str "http://x"), ("mimeType", .str "video/mp4")] none ∧
    PlayVideoURL (LGTV.mk "10.0.0.2" "" "" (some ⟨"ws://10.0.0.2:3000/"⟩) 0 none)
      "https://x" none =
      send (LGTV.mk "10.0.0.2" "" "" (some ⟨"ws://10.0.0.2:3000/"⟩) 0 none)
        "ssap://system.launcher/open"
        [("target", .str "https://x"), ("mimeType", .str "video/mp4")] none :=
  ⟨by
      have h := (PlayVideoURL_validation
        (LGTV.mk "10.0.0.2" "" "" (some ⟨"ws://10.0.0.2:3000/"⟩) 0 none) "ftp://x" none).2.1
        (by rw [← startsWith_iff, ← startsWith_iff]; decide)
      rw [h],
    (PlayVideoURL_validation _ "http://x" none).2.2 (Or.inl ⟨"x", by decide⟩),
    (PlayVideoURL_validation _ "https://x" none).2.2 (Or.inr ⟨"x", by decide⟩)⟩

/-! ## The listener: theorems -/

theorem listenStep_registered (tv : LGTV) (fs : Store) (write : Option String) (r : Response)
    (k : String) (m : String → Option String)
    (ht : r.Typ = "registered") (hk : r.Payload.lookup "client-key" = some (.str k))
    (hm : (loadConfig fs).ClientKeys = some m) :
    listenStep tv fs write r =
      { tv := { tv with ClientKey := k, responses := trySend tv.responses r },
        fs := Config.save { loadConfig fs with
          ClientKeys := some (fun a => if a = tv.IP then some k else m a) } fs write,
        panicked := false } := by
  unfold listenStep
  simp [ht, hk, hm, mapSet]

theorem listenStep_registered_nil (tv : LGTV) (fs : Store) (write : Option String)
    (r : Response) (k : String)
    (ht : r.Typ = "registered") (hk : r.Payload.lookup "client-key" = some (.str k))
    (hm : (loadConfig fs).ClientKeys = none) :
    listenStep tv fs write r =
      { tv := { tv with ClientKey := k }, fs := fs, panicked := true } := by
  unfold listenStep
  simp [ht, hk, hm, mapSet]

theorem listenStep_other (tv : LGTV) (fs : Store) (write : Option String) (r : Response)
    (h : r.Typ ≠ "registered" ∨ ∀ k, r.Payload.lookup "client-key" ≠ some (.str k)) :
    listenStep tv fs write r =
      { tv := { tv with responses := trySend tv.responses r }, fs := fs, panicked := false } := by
  unfold listenStep
  by_cases ht : r.Typ = "registered"
  · have hk : ∀ k, r.Payload.lookup "client-key" ≠ some (.str k) := by
      rcases h with h | h
      · exact absurd ht h
      · exact h
    cases hl : r.Payload.lookup "client-key" with
    | none => simp [ht]
    | some v =>
      cases v with
      | str key => exact absurd hl (hk key)
      | _ => simp [ht]
  · simp [ht]

theorem listenStep_ClientKey (tv : LGTV) (fs : Store) (write : Option String) (r : Response)
    (k : String)
    (ht : r.Typ = "registered") (hk : r.Payload.lookup "client-key" = some (.str k)) :
    (listenStep tv fs write r).tv.ClientKey = k := by
  cases hm : (loadConfig fs).ClientKeys with
  | none => rw [listenStep_registered_nil tv fs write r k ht hk hm]
  | some m => rw [listenStep_registered tv fs write r k m ht hk hm]

/-- On a store whose client-key map is not nil, one iteration never panics,
offers the frame to the queue, and leaves the client-key map not nil. -/
theorem listenStep_of_store_ok (tv : LGTV) (fs : Store) (write : Option String) (r : Response)
    (hmap : (loadConfig fs).ClientKeys ≠ none) :
    (listenStep tv fs write r).panicked = false ∧
    (listenStep tv fs write r).tv.responses = trySend tv.responses r ∧
    (loadConfig (listenStep tv fs write r).fs).ClientKeys ≠ none := by
  obtain ⟨m, hm⟩ := Option.ne_none_iff_exists'.mp hmap
  by_cases h : r.Typ ≠ "registered" ∨ ∀ k, r.Payload.lookup "client-key" ≠ some (.str k)
  · rw [listenStep_other tv fs write r h]
    exact ⟨rfl, rfl, hmap⟩
  · have ht : r.Typ = "registered" := by
      by_contra hne
      exact h (Or.inl hne)
    have hk : ∃ k, r.Payload.lookup "client-key" = some (.str k) := by
      by_contra hne
      exact h (Or.inr (fun k hkk => hne ⟨k, hkk⟩))
    obtain ⟨k, hk⟩ := hk
    rw [listenStep_registered tv fs write r k m ht hk hm]
    refine ⟨rfl, rfl, ?_⟩
    cases write with
    | none => simp [Config.save, loadConfig]
    | some e => simpa [Config.save] using hmap

theorem listen_queue (frames : List Response) :
    ∀ (tv : LGTV) (fs : Store) (writes : Nat → Option String) (q : List Response),
    tv.responses = some ⟨10, q⟩ → (loadConfig fs).ClientKeys ≠ none →
    (listen tv fs writes frames).panicked = false ∧
    (listen tv fs writes frames).tv.responses =
      some ⟨10, q ++ frames.take (10 - q.length)⟩ := by
  induction frames with
  | nil => intro tv fs writes q h _; simp [listen, h]
  | cons r rs ih =>
    intro tv fs writes q h hmap
    obtain ⟨hp, hstep, hmap2⟩ := listenStep_of_store_ok tv fs (writes 0) r hmap
    rw [h] at hstep
    simp only [listen, hp, Bool.false_eq_true, if_false]
    by_cases hq : q.length < 10
    · have h2 : (listenStep tv fs (writes 0) r).tv.responses = some ⟨10, q ++ [r]⟩ := by
        rw [hstep]; simp [trySend, hq]
      obtain ⟨i1, i2⟩ := ih _ _ (fun i => writes (i + 1)) _ h2 hmap2
      refine ⟨i1, ?_⟩
      rw [i2]
      have h3 : 10 - q.length = (10 - (q ++ [r]).length) + 1 := by
        simp only [List.length_append, List.length_singleton]; omega
      rw [h3, List.take_succ_cons]
      simp
    · have h2 : (listenStep tv fs (writes 0) r).tv.responses = some ⟨10, q⟩ := by
        rw [hstep]; simp [trySend, hq]
      obtain ⟨i1, i2⟩ := ih _ _ (fun i => writes (i + 1)) _ h2 hmap2
      refine ⟨i1, ?_⟩
      rw [i2]
      have h3 : 10 - q.length = 0 := by omega
      simp [h3]

theorem Connect_responses (tv : LGTV) (w : World) :
    (Connect tv w).tv.responses = some ⟨10, []⟩ := by
  unfold Connect
  simp only
  split
  · rfl
  · split
    · rfl
    · split <;> rfl

/-- The bounded queue on every credential file whose client-key map is not
nil: `Connect` creates the queue empty with capacity 10; the listener never
panics, appends a frame of any kind iff the queue holds fewer than 10 frames
and otherwise leaves the queue unchanged; after any number `n` of frames the
queue holds exactly the first `min n 10` frames received, in arrival order. -/
theorem correlation_queue_of_store_ok (tv : LGTV) (w : World) (fs : Store)
    (hmap : (loadConfig fs).ClientKeys ≠ none) :
    (Connect tv w).tv.responses = some ⟨10, []⟩ ∧
    (∀ (s : LGTV) (write : Option String) (r : Response) (q : List Response),
      s.responses = some ⟨10, q⟩ →
      (q.length < 10 → (listenStep s fs write r).tv.responses = some ⟨10, q ++ [r]⟩) ∧
      (10 ≤ q.length → (listenStep s fs write r).tv.responses = some ⟨10, q⟩)) ∧
    (∀ (writes : Nat → Option String) (frames : List Response),
      (listen (Connect tv w).tv fs writes frames).panicked = false ∧
      (listen (Connect tv w).tv fs writes frames).tv.responses = some ⟨10, frames.take 10⟩ ∧
      (frames.take 10).length = min frames.length 10 ∧
      (frames.take 10).length ≤ 10) := by
  refine ⟨Connect_responses tv w, ?_, ?_⟩
  · intro s write r q h
    rw [(listenStep_of_store_ok s fs write r hmap).2.1, h]
    constructor
    · intro hq; simp [trySend, hq]
    · intro hq; simp [trySend, Nat.not_lt.mpr hq]
  · intro writes frames
    obtain ⟨h1, h2⟩ :=
      listen_queue frames (Connect tv w).tv fs writes [] (Connect_responses tv w) hmap
    refine ⟨h1, ?_, ?_, ?_⟩
    · simpa using h2
    · simp [Nat.min_comm]
    · simp

/-- C5, as stated, fails: a session whose credential is "abc" that receives a
`registered` frame with the client-key "xyz" ends with the credential "xyz",
and one that receives a `registered` frame with the empty client-key ends with
the empty credential. -/
theorem credential_overwrite_counterexample :
    (listenStep (LGTV.mk "10.0.0.2" "" "abc" (some ⟨"ws://10.0.0.2:3000/"⟩) 0 (some ⟨10, []⟩)) none
      none ⟨"registered", "reg_0", [("client-key", .str "xyz")], ""⟩).tv.ClientKey = "xyz" ∧
    (listenStep (LGTV.mk "10.0.0.2" "" "abc" (some ⟨"ws://10.0.0.2:3000/"⟩) 0 (some ⟨10, []⟩)) none
      none ⟨"registered", "reg_0", [("client-key", .str "")], ""⟩).tv.ClientKey = "" := by
  decide

/-- C5, amended.  The in-memory credential is changed only by a `registered`
frame whose payload carries a string client-key, and then it becomes exactly
that key, whatever it was before; every other frame leaves it unchanged, so a
run of such frames leaves it unchanged as well.  This holds for every
credential file and every outcome of the file writes. -/
theorem credential_changes_only_on_registered (tv : LGTV) (fs : Store) :
    (∀ (write : Option String) (r : Response) (k : String), r.Typ = "registered" →
      r.Payload.lookup "client-key" = some (.str k) →
      (listenStep tv fs write r).tv.ClientKey = k) ∧
    (∀ (write : Option String) (r : Response),
      (r.Typ ≠ "registered" ∨ ∀ k, r.Payload.lookup "client-key" ≠ some (.str k)) →
      (listenStep tv fs write r).tv.ClientKey = tv.ClientKey) ∧
    (∀ (writes : Nat → Option String) (frames : List Response),
      (∀ r ∈ frames,
        r.Typ ≠ "registered" ∨ ∀ k, r.Payload.lookup "client-key" ≠ some (.str k)) →
      (listen tv fs writes frames).tv.ClientKey = tv.ClientKey) := by
  refine ⟨?_, ?_, ?_⟩
  · intro write r k ht hk
    exact listenStep_ClientKey tv fs write r k ht hk
  · intro write r h
    rw [listenStep_other tv fs write r h]
  · intro writes frames
    induction frames generalizing tv fs writes with
    | nil => intro _; rfl
    | cons r rs ih =>
      intro h
      have hstep := listenStep_other tv fs (writes 0) r (h r (List.mem_cons_self _ _))
      simp only [listen, hstep, Bool.false_eq_true, if_false]
      rw [ih _ _ _ (fun x hx => h x (List.mem_cons_of_mem _ hx))]

/-- C5 amended, at a concrete input: a `response` frame, an `error` frame and
a `registered` frame without client-key leave the credential "abc" in place. -/
theorem credential_changes_only_on_registered_witness :
    (listen (LGTV.mk "10.0.0.2" "" "abc" (some ⟨"ws://10.0.0.2:3000/"⟩) 0 (some ⟨10, []⟩)) none
      (fun _ => none)
      [⟨"response", "req_1", [("returnValue", .bool true)], ""⟩,
        ⟨"error", "req_2", [], "401 insufficient permissions"⟩,
        ⟨"registered", "reg_0", [], ""⟩]).tv.ClientKey = "abc" :=
  (credential_changes_only_on_registered
    (LGTV.mk "10.0.0.2" "" "abc" (some ⟨"ws://10.0.0.2:3000/"⟩) 0 (some ⟨10, []⟩)) none).2.2
    (fun _ => none) _
    (by
      intro r hr
      simp only [List.mem_cons, List.mem_singleton, List.not_mem_nil, or_false] at hr
      rcases hr with rfl | rfl | rfl
      · exact Or.inl (by decide)
      · exact Or.inl (by decide)
      · exact Or.inr (fun k => by simp))

/-- C6, as stated, fails.  When the file write fails (its error is discarded
at line 45) the frame is processed without error but the store has no entry
for the device afterwards.  When the file gives `client_keys` as `null` the
assignment at line 223 panics: the listener dies and nothing is stored. -/
theorem pairing_store_counterexample :
    ((listenStep (LGTV.mk "10.0.0.2" "" "" (some ⟨"ws://10.0.0.2:3000/"⟩) 0 (some ⟨10, []⟩))
        none (some "permission denied")
        ⟨"registered", "reg_0", [("client-key", .str "abc123")], ""⟩).panicked = false ∧
      mapGet (loadConfig (listenStep
        (LGTV.mk "10.0.0.2" "" "" (some ⟨"ws://10.0.0.2:3000/"⟩) 0 (some ⟨10, []⟩))
        none (some "permission denied")
        ⟨"registered", "reg_0", [("client-key", .str "abc123")], ""⟩).fs).ClientKeys "10.0.0.2" =
        none) ∧
    ((listenStep (LGTV.mk "10.0.0.2" "" "" (some ⟨"ws://10.0.0.2:3000/"⟩) 0 (some ⟨10, []⟩))
        (some ⟨none, some (fun _ => none)⟩) none
        ⟨"registered", "reg_0", [("client-key", .str "abc123")], ""⟩).panicked = true ∧
      mapGet (loadConfig (listenStep
        (LGTV.mk "10.0.0.2" "" "" (some ⟨"ws://10.0.0.2:3000/"⟩) 0 (some ⟨10, []⟩))
        (some ⟨none, some (fun _ => none)⟩) none
        ⟨"registered", "reg_0", [("client-key", .str "abc123")], ""⟩).fs).ClientKeys "10.0.0.2" =
        none) := by
  decide

/-- C6, amended.  On a credential file whose client-key map is not nil, a
`registered` frame whose payload carries the string client-key `k` is
processed without panic and sets the in-memory credential to `k`.  If the
file write succeeds, the stored credential of the session's address is `k`
afterwards and every other stored entry is as before; if it fails, the file
is left as it was.  Processing the same frame again does not panic and leaves
the in-memory credential as it was; it leaves the file exactly as it was
after the first processing whenever the first write succeeded or the second
one fails. -/
theorem pairing_idempotent (tv : LGTV) (fs : Store) (r : Response) (k : String)
    (ht : r.Typ = "registered") (hk : r.Payload.lookup "client-key" = some (.str k))
    (hmap : (loadConfig fs).ClientKeys ≠ none) (w1 w2 : Option String) :
    (listenStep tv fs w1 r).panicked = false ∧
    (listenStep tv fs w1 r).tv.ClientKey = k ∧
    (w1 = none →
      mapGet (loadConfig (listenStep tv fs w1 r).fs).ClientKeys tv.IP = some k ∧
      (∀ a, a ≠ tv.IP →
        mapGet (loadConfig (listenStep tv fs w1 r).fs).ClientKeys a =
          mapGet (loadConfig fs).ClientKeys a) ∧
      (loadConfig (listenStep tv fs w1 r).fs).MacAddresses = (loadConfig fs).MacAddresses) ∧
    (w1 ≠ none → (listenStep tv fs w1 r).fs = fs) ∧
    (listenStep (listenStep tv fs w1 r).tv (listenStep tv fs w1 r).fs w2 r).panicked = false ∧
    (listenStep (listenStep tv fs w1 r).tv (listenStep tv fs w1 r).fs w2 r).tv.ClientKey =
      (listenStep tv fs w1 r).tv.ClientKey ∧
    ((w1 = none ∨ w2 ≠ none) →
      (listenStep (listenStep tv fs w1 r).tv (listenStep tv fs w1 r).fs w2 r).fs =
        (listenStep tv fs w1 r).fs) := by
  obtain ⟨m, hm⟩ := Option.ne_none_iff_exists'.mp hmap
  have h1 := listenStep_registered tv fs w1 r k m ht hk hm
  obtain ⟨hp1, -, hmap1⟩ := listenStep_of_store_ok tv fs w1 r hmap
  obtain ⟨m1, hm1⟩ := Option.ne_none_iff_exists'.mp hmap1
  have h2 := listenStep_registered (listenStep tv fs w1 r).tv (listenStep tv fs w1 r).fs w2 r k
    m1 ht hk hm1
  have hip : (listenStep tv fs w1 r).tv.IP = tv.IP := by rw [h1]
  refine ⟨hp1, listenStep_ClientKey tv fs w1 r k ht hk, ?_, ?_, ?_, ?_, ?_⟩
  · intro hw
    subst hw
    have hfs : (listenStep tv fs none r).fs =
        some { loadConfig fs with
          ClientKeys := some (fun a => if a = tv.IP then some k else m a) } := by
      rw [h1]; rfl
    rw [hfs]
    refine ⟨?_, ?_, rfl⟩
    · show (if tv.IP = tv.IP then some k else m tv.IP) = some k
      simp
    · intro a ha
      rw [hm]
      show (if a = tv.IP then some k else m a) = m a
      simp [ha]
  · intro hw
    obtain ⟨e, he⟩ := Option.ne_none_iff_exists'.mp hw
    rw [h1, he]
    rfl
  · rw [h2]
  · rw [h2]
    simp only
    rw [listenStep_ClientKey tv fs w1 r k ht hk]
  · intro hw
    rw [h2]
    simp only [hip]
    cases w2 with
    | some e => rfl
    | none =>
      have hw1 : w1 = none := by
        rcases hw with h | h
        · exact h
        · exact absurd rfl h
      subst hw1
      have hfs : (listenStep tv fs none r).fs =
          some { loadConfig fs with
            ClientKeys := some (fun a => if a = tv.IP then some k else m a) } := by
        rw [h1]; rfl
      rw [hfs] at hm1 ⊢
      simp only [loadConfig, Option.some.injEq] at hm1
      subst hm1
      simp only [Config.save, loadConfig, Option.some.injEq]
      congr 1
      congr 1
      funext a
      by_cases ha : a = tv.IP <;> simp [ha]

/-- C6 amended, at a concrete input: the credential "abc123" arriving twice
for the device 10.0.0.2 while no credential file exists, both writes
succeeding. -/
theorem pairing_idempotent_witness :
    (listenStep (LGTV.mk "10.0.0.2" "" "" (some ⟨"ws://10.0.0.2:3000/"⟩) 0 (some ⟨10, []⟩)) none
      none ⟨"registered", "reg_0", [("client-key", .str "abc123")], ""⟩).tv.ClientKey =
        "abc123" ∧
    mapGet (loadConfig (listenStep
      (LGTV.mk "10.0.0.2" "" "" (some ⟨"ws://10.0.0.2:3000/"⟩) 0 (some ⟨10, []⟩)) none none
      ⟨"registered", "reg_0", [("client-key", .str "abc123")], ""⟩).fs).ClientKeys "10.0.0.2" =
        some "abc123" :=
  have h := pairing_idempotent
    (LGTV.mk "10.0.0.2" "" "" (some ⟨"ws://10.0.0.2:3000/"⟩) 0 (some ⟨10, []⟩)) none
    ⟨"registered", "reg_0", [("client-key", .str "abc123")], ""⟩ "abc123" rfl rfl (by simp [loadConfig])
    none none
  ⟨h.2.1, (h.2.2.1 rfl).1⟩

/-- C9 at a failing input.  The credential file gives `client_keys` as `null`
and the TV sends a `registered` frame with the client-key "abc123", then a
`response` frame.  The map assignment of the first frame panics before the
`select`: the listener ends with an empty queue, neither frame is queued. -/
theorem listener_panics_on_nil_client_keys :
    (listenStep (LGTV.mk "10.0.0.2" "" "" (some ⟨"ws://10.0.0.2:3000/"⟩) 0 (some ⟨10, []⟩))
      (some ⟨none, some (fun _ => none)⟩) none
      ⟨"registered", "reg_0", [("client-key", .str "abc123")], ""⟩).panicked = true ∧
    (listenStep (LGTV.mk "10.0.0.2" "" "" (some ⟨"ws://10.0.0.2:3000/"⟩) 0 (some ⟨10, []⟩))
      (some ⟨none, some (fun _ => none)⟩) none
      ⟨"registered", "reg_0", [("client-key", .str "abc123")], ""⟩).tv.responses.map
        (fun c => c.buf.length) = some 0 ∧
    (listen (LGTV.mk "10.0.0.2" "" "" (some ⟨"ws://10.0.0.2:3000/"⟩) 0 (some ⟨10, []⟩))
      (some ⟨none, some (fun _ => none)⟩) (fun _ => none)
      [⟨"registered", "reg_0", [("client-key", .str "abc123")], ""⟩,
        ⟨"response", "req_1", [], ""⟩]).panicked = true ∧
    (listen (LGTV.mk "10.0.0.2" "" "" (some ⟨"ws://10.0.0.2:3000/"⟩) 0 (some ⟨10, []⟩))
      (some ⟨none, some (fun _ => none)⟩) (fun _ => none)
      [⟨"registered", "reg_0", [("client-key", .str "abc123")], ""⟩,
        ⟨"response", "req_1", [], ""⟩]).tv.responses.map (fun c => c.buf.length) = some 0 := by
  decide

/-! ## Further facts and concrete scenarios -/

/-- The copy loop of `sendWOL` stops after sixteen iterations: any fuel of at
least 16 gives the same packet, so the fuel of `magicPacket` never runs out. -/
theorem fillLoop_fuel (hw : List Nat) (extra : Nat) (packet : List Nat) :
    fillLoop hw (16 + extra) 6 packet = fillLoop hw 16 6 packet := by
  have h : ∀ (p : List Nat), fillLoop hw extra 102 p = p := by
    intro p
    cases extra <;> simp [fillLoop]
  have e : 16 + extra = extra + 1 + 1 + 1 + 1 + 1 + 1 + 1 + 1 + 1 + 1 + 1 + 1 + 1 + 1 + 1 + 1 := by
    omega
  rw [e]
  simp [fillLoop, h]

/-- `sendWOL` returns the invalid-address error exactly when hex decoding of
the stripped address fails; the decoded length is never inspected. -/
theorem sendWOL_invalid_iff (mac : String) (w : UDPWorld) :
    (∃ e, (sendWOL mac w).err = some (.invalidMAC e)) ↔
      ∃ e, hexDecodeString (removeAll (removeAll mac.toList ':') '-') = .error e := by
  unfold sendWOL
  cases hd : hexDecodeString (removeAll (removeAll mac.toList ':') '-') with
  | error e => simp only [hd]; simp
  | ok hw =>
    simp only [hd]
    cases w.dial <;> cases w.write <;> simp

set_option maxRecDepth 20000 in
/-- C2 at failing inputs.  The two-byte address "AABB", the empty address and
a seven-byte address all hex-decode, so `sendWOL` returns no error and writes
a 102-byte packet: the address truncated to, or zero-padded to, six bytes,
sixteen times. -/
theorem sendWOL_wrong_length_accepted :
    (sendWOL "AABB" ⟨none, none⟩).err = none ∧
    (sendWOL "AABB" ⟨none, none⟩).written =
      some (List.replicate 6 0xff ++ (List.replicate 16 [0xaa, 0xbb, 0, 0, 0, 0]).flatten) ∧
    (sendWOL "" ⟨none, none⟩).err = none ∧
    (sendWOL "" ⟨none, none⟩).written =
      some (List.replicate 6 0xff ++ List.replicate 96 0) ∧
    (sendWOL "AA:BB:CC:DD:EE:FF:11" ⟨none, none⟩).err = none ∧
    (sendWOL "AA:BB:CC:DD:EE:FF:11" ⟨none, none⟩).written =
      some (List.replicate 6 0xff ++
        (List.replicate 16 [0xaa, 0xbb, 0xcc, 0xdd, 0xee, 0xff]).flatten) := by
  decide

/-- C3 at the two scenarios of the specification, on a reachable device: four
refused dials then a success, and five refused dials. -/
theorem Connect_retry_loop_witness :
    ((Connect (LGTV.mk "10.0.0.2" "" "" none 0 none)
        (World.mk none ⟨none, none⟩ (fun i => if i < 4 then some "refused" else none) none)).err =
        none ∧
      attempts (Connect (LGTV.mk "10.0.0.2" "" "" none 0 none)
        (World.mk none ⟨none, none⟩ (fun i => if i < 4 then some "refused" else none) none)).events =
        5 ∧
      sleeps 3 (Connect (LGTV.mk "10.0.0.2" "" "" none 0 none)
        (World.mk none ⟨none, none⟩ (fun i => if i < 4 then some "refused" else none) none)).events =
        4) ∧
    ((∃ e, (fun (_ : Nat) => some "refused") 4 = some e ∧
        (Connect (LGTV.mk "10.0.0.2" "" "" none 0 none)
          (World.mk none ⟨none, none⟩ (fun _ => some "refused") none)).err =
          some (.connectFailed e)) ∧
      attempts (Connect (LGTV.mk "10.0.0.2" "" "" none 0 none)
        (World.mk none ⟨none, none⟩ (fun _ => some "refused") none)).events = 5 ∧
      sleeps 3 (Connect (LGTV.mk "10.0.0.2" "" "" none 0 none)
        (World.mk none ⟨none, none⟩ (fun _ => some "refused") none)).events = 4) :=
  ⟨((Connect_retry_loop "10.0.0.2" (fun i => if i < 4 then some "refused" else none) none).2.2.2
      (LGTV.mk "10.0.0.2" "" "" none 0 none)
      (World.mk none ⟨none, none⟩ (fun i => if i < 4 then some "refused" else none) none)
      [] rfl rfl rfl).1 4 (by decide) (by decide)
      (by intro i hi; interval_cases i <;> decide),
    ((Connect_retry_loop "10.0.0.2" (fun _ => some "refused") none).2.2.2
      (LGTV.mk "10.0.0.2" "" "" none 0 none)
      (World.mk none ⟨none, none⟩ (fun _ => some "refused") none)
      [] rfl rfl rfl).2 (by intro i _; simp)⟩

end WebosXpl
